import Mathlib

/-!
Verification model of the natural-language graph-query assistant in
`src/api/lambda/aiQuery.js` (current Converse-API handler) and
`src/unnamed/part_002` (older InvokeModel handler) of the
build-neptune-graphapp-cdk repository.

JavaScript runtime values produced by `JSON.parse` are modelled by the
inductive `JSValue`; the JavaScript builtins the handler uses
(`JSON.parse`, `JSON.stringify(v, null, 2)`, regex match of the first
brace to the last brace, member access, truthiness, template-literal
string coercion, `for...of` iteration) are modelled as executable Lean
functions.  The two external services (the Bedrock model invocation and
the Gremlin traversal evaluation) are abstracted as oracle functions, and
the calls made to them are recorded in a trace.  Thrown JavaScript
exceptions are modelled by `Except String`, the error string standing for
the message of the thrown Error.
-/

/-- Model of a JavaScript value as produced by `JSON.parse`, plus
`undefined` (the result of reading an absent property).  A number is kept
in parsed form: sign, integer part, fraction digits, decimal exponent. -/
inductive JSValue where
  | undefined : JSValue
  | null : JSValue
  | bool (b : Bool) : JSValue
  | num (neg : Bool) (ip : Nat) (frac : List Nat) (exp : Int) : JSValue
  | str (s : String) : JSValue
  | arr (xs : List JSValue) : JSValue
  | obj (fields : List (String × JSValue)) : JSValue

/-- The double-quote character. -/
def qChar : Char := Char.ofNat 34

/-- The opening-brace character. -/
def obChar : Char := Char.ofNat 123

/-- The closing-brace character. -/
def cbChar : Char := Char.ofNat 125

/-- The apostrophe character, as a one-character string. -/
def apos : String := String.singleton (Char.ofNat 39)

/-- JSON whitespace. -/
def isJsonWs (c : Char) : Bool :=
  c == ' ' || c == '\n' || c == Char.ofNat 13 || c == '\t'

/-- Drop leading JSON whitespace. -/
def skipWs : List Char → List Char
  | [] => []
  | c :: rest => if isJsonWs c then skipWs rest else c :: rest

/-- Value of a hexadecimal digit. -/
def hexVal (c : Char) : Option Nat :=
  if '0' ≤ c && c ≤ '9' then some (c.toNat - 48)
  else if 'a' ≤ c && c ≤ 'f' then some (c.toNat - 87)
  else if 'A' ≤ c && c ≤ 'F' then some (c.toNat - 55)
  else none

/-- Value of a decimal digit. -/
def digitVal (c : Char) : Option Nat :=
  if '0' ≤ c && c ≤ '9' then some (c.toNat - 48) else none

/-- Take a maximal run of decimal digits. -/
def takeDigits : List Char → (List Nat × List Char)
  | [] => ([], [])
  | c :: rest =>
    match digitVal c with
    | some d =>
      let (ds, r) := takeDigits rest
      (d :: ds, r)
    | none => ([], c :: rest)

/-- Parse the body of a JSON string after the opening quote, decoding the
JSON escapes, up to and including the closing quote.  The fuel is always
called with at least the length of the input plus one, so it never runs
out before the input does. -/
def parseStringBody : Nat → List Char → Option (String × List Char)
  | 0, _ => none
  | _, [] => none
  | fuel + 1, c :: rest =>
    if c == qChar then some ("", rest)
    else if c == '\\' then
      match rest with
      | [] => none
      | e :: rest2 =>
        if e == qChar then
          (parseStringBody fuel rest2).map (fun p => (String.singleton qChar ++ p.1, p.2))
        else if e == '\\' then
          (parseStringBody fuel rest2).map (fun p => ("\\" ++ p.1, p.2))
        else if e == '/' then
          (parseStringBody fuel rest2).map (fun p => ("/" ++ p.1, p.2))
        else if e == 'b' then
          (parseStringBody fuel rest2).map (fun p => (String.singleton (Char.ofNat 8) ++ p.1, p.2))
        else if e == 'f' then
          (parseStringBody fuel rest2).map (fun p => (String.singleton (Char.ofNat 12) ++ p.1, p.2))
        else if e == 'n' then
          (parseStringBody fuel rest2).map (fun p => ("\n" ++ p.1, p.2))
        else if e == 'r' then
          (parseStringBody fuel rest2).map (fun p => (String.singleton (Char.ofNat 13) ++ p.1, p.2))
        else if e == 't' then
          (parseStringBody fuel rest2).map (fun p => ("\t" ++ p.1, p.2))
        else if e == 'u' then
          match rest2 with
          | h1 :: h2 :: h3 :: h4 :: rest3 =>
            match hexVal h1, hexVal h2, hexVal h3, hexVal h4 with
            | some a, some b, some c2, some d =>
              (parseStringBody fuel rest3).map
                (fun p => (String.singleton (Char.ofNat (((a * 16 + b) * 16 + c2) * 16 + d)) ++ p.1, p.2))
            | _, _, _, _ => none
          | _ => none
        else none
    else if c.toNat < 32 then none
    else (parseStringBody fuel rest).map (fun p => (String.singleton c ++ p.1, p.2))

/-- Parse a JSON number starting at a digit or minus sign.  The numeric
value is kept in parsed form (sign, integer part, fraction digits,
exponent); only zero-ness (for truthiness) and an approximate rendering
are ever consumed downstream. -/
def parseNumber (cs : List Char) : Option (JSValue × List Char) :=
  let (neg, cs1) :=
    match cs with
    | '-' :: rest => (true, rest)
    | _ => (false, cs)
  match cs1 with
  | [] => none
  | c :: rest =>
    match digitVal c with
    | none => none
    | some d =>
      -- JSON: the integer part is a single 0 or starts with a nonzero digit
      let (ip, cs2) :=
        if d == 0 then (0, rest)
        else
          let (ds, r) := takeDigits rest
          (ds.foldl (fun a x => a * 10 + x) d, r)
      let (frac, cs3) :=
        match cs2 with
        | '.' :: r2 =>
          match takeDigits r2 with
          | ([], _) => ([1000], [])  -- marker never hit: rejected below
          | (ds, r3) => (ds, r3)
        | _ => ([], cs2)
      if frac = [1000] then none
      else
        match cs3 with
        | 'e' :: r4 =>
          match parseExpPart r4 with
          | some (ex, r5) => some (.num neg ip frac ex, r5)
          | none => none
        | 'E' :: r4 =>
          match parseExpPart r4 with
          | some (ex, r5) => some (.num neg ip frac ex, r5)
          | none => none
        | _ => some (.num neg ip frac 0, cs3)
where
  /-- Parse the digits of an exponent after the e, with optional sign. -/
  parseExpPart (cs : List Char) : Option (Int × List Char) :=
    let (eneg, cs1) :=
      match cs with
      | '-' :: r => (true, r)
      | '+' :: r => (false, r)
      | _ => (false, cs)
    match takeDigits cs1 with
    | ([], _) => none
    | (ds, r) =>
      let n : Nat := ds.foldl (fun a x => a * 10 + x) 0
      some (if eneg then -(n : Int) else (n : Int), r)

/-- Check that the input starts with the given literal characters and
return the remainder. -/
def stripLit : List Char → List Char → Option (List Char)
  | [], cs => some cs
  | _, [] => none
  | l :: ls, c :: cs => if l == c then stripLit ls cs else none

/-- Insert a field into an object, replacing an existing field of the same
key in place (JavaScript objects keep the last value for a duplicated
key while preserving first-occurrence order). -/
def objInsert : List (String × JSValue) → String → JSValue → List (String × JSValue)
  | [], k, v => [(k, v)]
  | (k0, v0) :: rest, k, v =>
    if k0 == k then (k0, v) :: rest else (k0, v0) :: objInsert rest k v

mutual

/-- Parse one JSON value, returning it with the unconsumed remainder.
Fuel decreases on each nested parse; it is always supplied as at least
the input length plus one, and every recursive call first consumes at
least one character, so the fuel never runs out before the input does. -/
def parseVal : Nat → List Char → Option (JSValue × List Char)
  | 0, _ => none
  | fuel + 1, cs =>
    match skipWs cs with
    | [] => none
    | c :: rest =>
      if c == qChar then
        (parseStringBody (rest.length + 1) rest).map (fun p => (JSValue.str p.1, p.2))
      else if c == '[' then
        match skipWs rest with
        | c2 :: r2 =>
          if c2 == ']' then some (.arr [], r2)
          else parseArrItems fuel (c2 :: r2) []
        | [] => none
      else if c == obChar then
        match skipWs rest with
        | c2 :: r2 =>
          if c2 == cbChar then some (.obj [], r2)
          else parseObjItems fuel (c2 :: r2) []
        | [] => none
      else if c == 't' then
        (stripLit ['r', 'u', 'e'] rest).map (fun r => (JSValue.bool true, r))
      else if c == 'f' then
        (stripLit ['a', 'l', 's', 'e'] rest).map (fun r => (JSValue.bool false, r))
      else if c == 'n' then
        (stripLit ['u', 'l', 'l'] rest).map (fun r => (JSValue.null, r))
      else parseNumber (c :: rest)

/-- Parse the comma-separated items of a JSON array after the opening
bracket (first item not yet consumed). -/
def parseArrItems : Nat → List Char → List JSValue → Option (JSValue × List Char)
  | 0, _, _ => none
  | fuel + 1, cs, acc =>
    match parseVal fuel cs with
    | none => none
    | some (v, r) =>
      match skipWs r with
      | c :: r2 =>
        if c == ',' then parseArrItems fuel r2 (acc ++ [v])
        else if c == ']' then some (.arr (acc ++ [v]), r2)
        else none
      | [] => none

/-- Parse the comma-separated fields of a JSON object after the opening
brace (first field not yet consumed). -/
def parseObjItems : Nat → List Char → List (String × JSValue) → Option (JSValue × List Char)
  | 0, _, _ => none
  | fuel + 1, cs, acc =>
    match skipWs cs with
    | c :: r =>
      if c == qChar then
        match parseStringBody (r.length + 1) r with
        | none => none
        | some (k, r2) =>
          match skipWs r2 with
          | c2 :: r3 =>
            if c2 == ':' then
              match parseVal fuel r3 with
              | none => none
              | some (v, r4) =>
                match skipWs r4 with
                | c3 :: r5 =>
                  if c3 == ',' then parseObjItems fuel r5 (objInsert acc k v)
                  else if c3 == cbChar then some (.obj (objInsert acc k v), r5)
                  else none
                | [] => none
            else none
          | [] => none
      else none
    | [] => none

end

/-- Model of the JavaScript builtin `JSON.parse`: `none` models a thrown
SyntaxError. -/
def jsonParse (s : String) : Option JSValue :=
  match parseVal (s.length + 1) s.toList with
  | some (v, rest) => if (skipWs rest).isEmpty then some v else none
  | none => none

/-- Render a parsed JSON number back to text (sign, integer part,
fraction, exponent).  This approximates the canonical JavaScript number
rendering; it is exact for plain integers, the only numeric shape the
verified claims exercise. -/
def renderNum (neg : Bool) (ip : Nat) (frac : List Nat) (exp : Int) : String :=
  (if neg then "-" else "") ++ toString ip ++
    (if frac.isEmpty then "" else "." ++ String.join (frac.map toString)) ++
    (if exp == 0 then "" else "e" ++ toString exp)

/-- Escape one character for a JSON string literal. -/
def escChar (c : Char) : String :=
  if c == qChar then "\\" ++ String.singleton qChar
  else if c == '\\' then "\\\\"
  else if c == '\n' then "\\n"
  else if c == Char.ofNat 13 then "\\r"
  else if c == '\t' then "\\t"
  else if c == Char.ofNat 8 then "\\b"
  else if c == Char.ofNat 12 then "\\f"
  else if c.toNat < 32 then
    "\\u00" ++ String.singleton (Char.ofNat (if c.toNat / 16 < 10 then 48 + c.toNat / 16 else 87 + c.toNat / 16))
      ++ String.singleton (Char.ofNat (if c.toNat % 16 < 10 then 48 + c.toNat % 16 else 87 + c.toNat % 16))
  else String.singleton c

/-- Quote and escape a string as a JSON string literal. -/
def escapeJsonString (s : String) : String :=
  String.singleton qChar ++ String.join (s.toList.map escChar) ++ String.singleton qChar

/-- Model of `JSON.stringify(v, null, 2)` (two-space pretty printing), at
the given current indentation.  `none` models the JavaScript result
`undefined` (stringifying `undefined` itself). -/
def stringifyV : JSValue → String → Option String
  | .undefined, _ => none
  | .null, _ => some "null"
  | .bool b, _ => some (cond b "true" "false")
  | .num neg ip frac exp, _ => some (renderNum neg ip frac exp)
  | .str s, _ => some (escapeJsonString s)
  | .arr xs, ind =>
    if xs.isEmpty then some "[]"
    else
      let ind2 := ind ++ "  "
      let items := xs.attach.map (fun x => ind2 ++ (stringifyV x.1 ind2).getD "null")
      some ("[\n" ++ String.intercalate ",\n" items ++ "\n" ++ ind ++ "]")
  | .obj fs, ind =>
    let ind2 := ind ++ "  "
    let items := fs.attach.filterMap (fun kv =>
      (stringifyV kv.1.2 ind2).map
        (fun sv => ind2 ++ escapeJsonString kv.1.1 ++ ": " ++ sv))
    if items.isEmpty then some (String.singleton obChar ++ String.singleton cbChar)
    else
      some (String.singleton obChar ++ "\n" ++ String.intercalate ",\n" items ++ "\n"
        ++ ind ++ String.singleton cbChar)
termination_by v _ => sizeOf v
decreasing_by
  · have := List.sizeOf_lt_of_mem x.2
    simp only [JSValue.arr.sizeOf_spec]
    omega
  · have h1 := List.sizeOf_lt_of_mem kv.2
    have h2 : sizeOf kv.1.2 < sizeOf kv.1 := by
      obtain ⟨⟨k, v⟩, hmem⟩ := kv
      simp only [Prod.mk.sizeOf_spec]
      omega
    simp only [JSValue.obj.sizeOf_spec]
    omega

/-- Model of `JSON.stringify(v, null, 2)` at top level. -/
def jsonStringify (v : JSValue) : Option String :=
  stringifyV v ""

/-- Model of JavaScript template-literal string coercion `${v}` (inside
`Array.prototype.toString`, null and undefined elements render as the
empty string, hence the inner match). -/
def jsToString : JSValue → String
  | .undefined => "undefined"
  | .null => "null"
  | .bool b => cond b "true" "false"
  | .num neg ip frac exp => renderNum neg ip frac exp
  | .str s => s
  | .arr xs =>
    String.intercalate "," (xs.attach.map (fun x =>
      match x with
      | ⟨.null, _⟩ => ""
      | ⟨.undefined, _⟩ => ""
      | ⟨x2, _⟩ => jsToString x2))
  | .obj _ => "[object Object]"
termination_by v => sizeOf v
decreasing_by
  rename_i h
  have := List.sizeOf_lt_of_mem h
  simp only [JSValue.arr.sizeOf_spec]
  omega

/-- Model of JavaScript truthiness. -/
def jsTruthy : JSValue → Bool
  | .undefined => false
  | .null => false
  | .bool b => b
  | .num _ ip frac _ => !(ip == 0 && frac.all (· == 0))
  | .str s => !(s == "")
  | .arr _ => true
  | .obj _ => true

/-- Strict equality `v === "lit"` of a JavaScript value against a string
literal. -/
def jsStrictEqStr (v : JSValue) (s : String) : Bool :=
  match v with
  | .str t => t == s
  | _ => false

/-- Field lookup inside an object literal (duplicates were collapsed at
parse time, so the first match is the JavaScript value). -/
def lookupField : List (String × JSValue) → String → JSValue
  | [], _ => .undefined
  | (k, v) :: rest, key => if k == key then v else lookupField rest key

/-- Model of JavaScript member access `v.k`: throws a TypeError on null
and undefined, yields undefined on non-objects and absent fields. -/
def jsMember (v : JSValue) (k : String) : Except String JSValue :=
  match v with
  | .null => .error ("TypeError: Cannot read properties of null (reading " ++ apos ++ k ++ apos ++ ")")
  | .undefined => .error ("TypeError: Cannot read properties of undefined (reading " ++ apos ++ k ++ apos ++ ")")
  | .obj fs => .ok (lookupField fs k)
  | _ => .ok .undefined

/-- Model of `for...of` element production: arrays yield their elements,
strings their characters; every other value raises a TypeError. -/
def forOfElems : JSValue → Except String (List JSValue)
  | .arr xs => .ok xs
  | .str s => .ok (s.toList.map (fun c => .str (String.singleton c)))
  | _ => .error "TypeError: value is not iterable"

/-- One conversation message as built by the handler: the role is the
literal "user" or "assistant" chosen by the normalization
`entry.role === "user" ? "user" : "assistant"`, the content is whatever
value the corresponding history entry carried (a string for well-formed
histories). -/
structure Message where
  role : String
  content : JSValue

/-- The sole output shape of the handler: `answer` (a string on every code
path except the directive-answer passthrough, which forwards the parsed
JSON value), nullable `query` and nullable `data`. -/
structure AssistantResponse where
  answer : JSValue
  query : Option String
  data : Option String

/-- The inbound AppSync event: `event.arguments?.question` and
`event.arguments?.history`, with `none` for an absent field. -/
structure AppSyncEvent where
  question : Option String
  history : Option String

/-- Record of the external calls one invocation makes: the message
sequences sent to the Bedrock adapter, in order, and the traversal
fragments handed to the Gremlin executor, in order. -/
structure CallTrace where
  bedrockCalls : List (List Message)
  gremlinCalls : List String

/-- The empty call trace. -/
def emptyTrace : CallTrace := { bedrockCalls := [], gremlinCalls := [] }

/-- Oracle for the Bedrock model adapter: maps the message sequence of a
call to the completion text it returns, or to the message of the error it
throws. -/
structure OrchestratorEnv where
  bedrock : List Message → Except String String

/-- Oracle for the Gremlin side: `eval q` is the outcome of awaiting
`queryFn(g, P)` for the fragment `q` (the code evaluated is
`return g.` ++ `q`), and `closeOutcome` is the outcome of
`conn.close()`. -/
structure GremlinEnv where
  eval : String → Except String JSValue
  closeOutcome : Except String Unit

/-- Count of connection opens and closes performed by one executor
call. -/
structure ConnTrace where
  opens : Nat
  closes : Nat

/-- JavaScript `try { act } catch (e) { console.warn(e) }`: the error is
logged and swallowed. -/
def jsCatchAll (act : Except String Unit) : Except String Unit :=
  match act with
  | .ok u => .ok u
  | .error _ => .ok ()

/-- JavaScript `try { body } finally { fin }`: the finalizer always runs;
its outcome replaces that of the body only when the finalizer itself throws. -/
def jsTryFinally (body : Except String α) (fin : Except String Unit) : Except String α :=
  match fin with
  | .ok _ => body
  | .error e => .error e

/-- Model of `executeGremlin` (aiQuery.js lines 100-118): open a fresh
connection, evaluate `return g.` ++ `queryString` against it, and in a
`finally` close the connection, swallowing (logging) any close error so
that it cannot mask the result or error of the body. -/
def executeGremlin (genv : GremlinEnv) (queryString : String) :
    Except String JSValue × ConnTrace :=
  -- const conn = createRemoteConnection();  (one fresh connection per call)
  let body := genv.eval queryString
  (jsTryFinally body (jsCatchAll genv.closeOutcome), { opens := 1, closes := 1 })

/-- Default model id of the Converse-API variant (`process.env.MODEL_ID`
is taken as unset). -/
def MODEL_ID : String := "amazon.nova-lite-v1:0"

/-- The GRAPH_SCHEMA template literal of aiQuery.js. -/
def GRAPH_SCHEMA : String :=
  "\nGraph Schema:\n- Vertex labels: person, product, conference, institution, document\n- Edge labels: usage, belong_to, authored_by, affiliated_with, made_by\n- All vertices have a \x22name\x22 property\n- Edge \x22usage\x22 connects person -> product (with numeric weight)\n- Edge \x22belong_to\x22 connects document -> conference\n- Edge \x22authored_by\x22 connects document -> person\n- Edge \x22affiliated_with\x22 connects person -> institution\n- Edge \x22made_by\x22 connects product -> person/institution\n\nExample Gremlin queries:\n- Get all people: g.V().hasLabel(\x27person\x27).values(\x27name\x27).toList()\n- Get products used by a person: g.V().has(\x27person\x27,\x27name\x27,\x27Doctor1\x27).out(\x27usage\x27).values(\x27name\x27).toList()\n- Count vertices: g.V().count().next()\n- Count edges: g.E().count().next()\n- Get all vertex labels: g.V().label().dedup().toList()\n- Get neighbors of a vertex: g.V().has(\x27person\x27,\x27name\x27,\x27Doctor1\x27).both().values(\x27name\x27).toList()\n"

/-- The SYSTEM_PROMPT template literal of aiQuery.js (identical in
part_002). -/
def SYSTEM_PROMPT : String :=
  "You are a graph database assistant for Amazon Neptune. You help users query a graph database using natural language.\n\n"
  ++ GRAPH_SCHEMA
  ++ "\n\nWhen a user asks a question about the graph data:\n1. Determine if you need to query the graph to answer\n2. If yes, generate a Gremlin query\n3. Return your response as JSON\n\nIMPORTANT RULES:\n- Only generate READ queries (no mutations/drops)\n- Use the Gremlin traversal language\n- Always return valid JSON in this exact format:\n\nIf a query is needed:\n\x7b\x22needsQuery\x22: true, \x22gremlinQuery\x22: \x22<the gremlin traversal after g.>\x22, \x22explanation\x22: \x22<brief explanation of what the query does>\x22\x7d\n\nIf no query is needed (general question about the schema, greetings, etc.):\n\x7b\x22needsQuery\x22: false, \x22answer\x22: \x22<your answer>\x22, \x22explanation\x22: \x22\x22\x7d\n\nExamples:\nUser: \x22Who are all the people in the graph?\x22\n\x7b\x22needsQuery\x22: true, \x22gremlinQuery\x22: \x22V().hasLabel(\x27person\x27).values(\x27name\x27).toList()\x22, \x22explanation\x22: \x22Lists all person vertices by name\x22\x7d\n\nUser: \x22What products does Doctor1 use?\x22\n\x7b\x22needsQuery\x22: true, \x22gremlinQuery\x22: \x22V().has(\x27person\x27,\x27name\x27,\x27Doctor1\x27).out(\x27usage\x27).values(\x27name\x27).toList()\x22, \x22explanation\x22: \x22Finds products connected to Doctor1 via usage edges\x22\x7d\n\nUser: \x22How many nodes are in the graph?\x22\n\x7b\x22needsQuery\x22: true, \x22gremlinQuery\x22: \x22V().count().next()\x22, \x22explanation\x22: \x22Counts all vertices in the graph\x22\x7d\n\nUser: \x22What types of relationships exist?\x22\n\x7b\x22needsQuery\x22: false, \x22answer\x22: \x22The graph has these relationship types: usage, belong_to, authored_by, affiliated_with, and made_by.\x22, \x22explanation\x22: \x22\x22\x7d\n"

/-- One content block of a Converse request. -/
structure ConverseBlock where
  text : JSValue

/-- The ConverseCommand payload built by `invokeBedrock` of aiQuery.js. -/
structure ConverseRequest where
  modelId : String
  system : List String
  messages : List (String × List ConverseBlock)
  maxTokens : Nat

/-- Model of the ConverseCommand construction in `invokeBedrock`
(aiQuery.js lines 67-77). -/
def mkConverseRequest (messages : List Message) : ConverseRequest :=
  { modelId := MODEL_ID
    system := [SYSTEM_PROMPT]
    messages := messages.map (fun m => (m.role, [{ text := m.content }]))
    maxTokens := 1024 }

/-- One content block of a Converse reply, `text` possibly absent. -/
structure ReplyBlock where
  text : Option String

/-- Model of the reply handling in `invokeBedrock` (aiQuery.js lines
78-83): `output` is `response.output?.message?.content`; the adapter
throws unless a nonempty first text block exists, and otherwise returns
that text. -/
def extractConverseText (output : Option (List ReplyBlock)) : Except String String :=
  match output with
  | none => .error "Empty response from Bedrock"
  | some blocks =>
    match blocks with
    | [] => .error "Empty response from Bedrock"
    | b :: _ =>
      match b.text with
      | none => .error "Empty response from Bedrock"
      | some t => if t == "" then .error "Empty response from Bedrock" else .ok t

/-- The fixed guidance answer returned for an absent or empty question
(aiQuery.js lines 125-131). -/
def guidanceText : String :=
  "Please ask a question about the graph data. For example: \x27Who are all the people in the graph?\x27 or \x27What products does Doctor1 use?\x27"

/-- The fixed guidance response. -/
def guidanceResponse : AssistantResponse :=
  { answer := .str guidanceText, query := none, data := none }

/-- Prefix of the top-level catch-all answer (aiQuery.js lines 218-226). -/
def failureIntro : String :=
  "Sorry, I encountered an error processing your question: "

/-- The fixed tail of the second (summary) user turn (aiQuery.js line
208). -/
def summaryTail : String :=
  "\n\nPlease provide a clear, concise natural language summary of these results to answer my original question. Do not return JSON, just a plain text answer."

/-- The error message standing for the SyntaxError thrown by `JSON.parse`
on invalid input. -/
def jsonErrMsg : String := "SyntaxError: Unexpected token in JSON"

/-- Model of `event.arguments?.history ? JSON.parse(event.arguments.history) : []`
(aiQuery.js lines 122-124).  A falsy history (absent or empty string)
yields the empty array without parsing; otherwise `JSON.parse` runs and
its SyntaxError — thrown before the try block — escapes as `.error`. -/
def parseHistoryArg (ev : AppSyncEvent) : Except String JSValue :=
  match ev.history with
  | none => .ok (.arr [])
  | some h =>
    if h == "" then .ok (.arr [])
    else
      match jsonParse h with
      | some v => .ok v
      | none => .error jsonErrMsg

/-- Model of one loop body of `for (const entry of conversationHistory)`
(aiQuery.js lines 135-140): read `entry.role` and `entry.content`
(throwing on null/undefined entries) and normalize the role with
`entry.role === "user" ? "user" : "assistant"`. -/
def toMessage (e : JSValue) : Except String Message :=
  match jsMember e "role" with
  | .error err => .error err
  | .ok r =>
    match jsMember e "content" with
    | .error err => .error err
    | .ok c =>
      .ok { role := if jsStrictEqStr r "user" then "user" else "assistant", content := c }

/-- Model of the whole history loop: messages are pushed in order, and
the first thrown error aborts the loop. -/
def buildMessages : List JSValue → Except String (List Message)
  | [] => .ok []
  | e :: rest =>
    match toMessage e with
    | .error err => .error err
    | .ok m =>
      match buildMessages rest with
      | .error err => .error err
      | .ok ms => .ok (m :: ms)

/-- Iterate the parsed history value and build the message list
(aiQuery.js lines 134-140). -/
def decodeHistory (v : JSValue) : Except String (List Message) :=
  match forOfElems v with
  | .error e => .error e
  | .ok entries => buildMessages entries

/-- Model of the `while (messages.length > 0 && messages[0].role !== "user")
messages.shift()` compatibility shim (aiQuery.js lines 146-148). -/
def stripLeadingNonUser : List Message → List Message
  | [] => []
  | m :: rest => if m.role == "user" then m :: rest else stripLeadingNonUser rest

/-- Model of the
`console.log(JSON.stringify(messages.map(m => ({role: m.role, len: m.content.length}))))`
call (aiQuery.js line 149): reading `.length` of a null or undefined
content throws a TypeError; every other content value is harmless. -/
def checkLogLens : List Message → Except String Unit
  | [] => .ok ()
  | m :: rest =>
    match m.content with
    | .null => .error ("TypeError: Cannot read properties of null (reading " ++ apos ++ "length" ++ apos ++ ")")
    | .undefined => .error ("TypeError: Cannot read properties of undefined (reading " ++ apos ++ "length" ++ apos ++ ")")
    | _ => checkLogLens rest

/-- Model of `bedrockResponse.match(/\x7b[\s\S]*\x7d/)`: the leftmost,
greedy match runs from the first opening brace to the last closing brace,
and exists exactly when some opening brace precedes some closing brace. -/
def firstBraceSlice (s : String) : Option String :=
  let cs := s.toList
  match cs.findIdx? (· == obChar), cs.reverse.findIdx? (· == cbChar) with
  | some i, some jr =>
    let j := cs.length - 1 - jr
    if i < j then some (String.mk ((cs.drop i).take (j - i + 1))) else none
  | _, _ => none

/-- Model of the directive-parsing step (aiQuery.js lines 154-164): parse
the brace-delimited slice when the regex matches, otherwise parse the
whole text; `none` models the caught parse error. -/
def extractDirective (t : String) : Option JSValue :=
  match firstBraceSlice t with
  | some sub => jsonParse sub
  | none => jsonParse t

/-- The query-execution phase plus the summary phase of the pipeline
(aiQuery.js lines 183-216), starting from the stringified
`parsed.gremlinQuery`. -/
def runQueryPhase (env : OrchestratorEnv) (genv : GremlinEnv)
    (messages : List Message) (qstr : String) :
    Except String AssistantResponse × CallTrace :=
  let res := (executeGremlin genv qstr).1
  match res with
  | .error e =>
    (.ok { answer := .str ("I tried to query the graph but encountered an error. The query was: g."
             ++ qstr ++ ". Error: " ++ e)
         , query := some ("g." ++ qstr), data := none }
    , { bedrockCalls := [messages], gremlinCalls := [qstr] })
  | .ok r =>
    let resultStr := jsonStringify r
    let summaryMessages := messages ++
      [ { role := "assistant", content := .str ("I executed the Gremlin query: g." ++ qstr) }
      , { role := "user", content := .str ("The query returned these results: "
            ++ resultStr.getD "undefined" ++ summaryTail) } ]
    match env.bedrock summaryMessages with
    | .error e =>
      (.error e, { bedrockCalls := [messages, summaryMessages], gremlinCalls := [qstr] })
    | .ok summary =>
      (.ok { answer := .str summary, query := some ("g." ++ qstr), data := resultStr }
      , { bedrockCalls := [messages, summaryMessages], gremlinCalls := [qstr] })

/-- The directive-dispatch phase (aiQuery.js lines 173-182) given the
parsed directive. -/
def dispatchDirective (env : OrchestratorEnv) (genv : GremlinEnv)
    (messages : List Message) (raw : String) (parsed : JSValue) :
    Except String AssistantResponse × CallTrace :=
  let t1 : CallTrace := { bedrockCalls := [messages], gremlinCalls := [] }
  match jsMember parsed "needsQuery" with
  | .error e => (.error e, t1)
  | .ok nq =>
    if jsTruthy nq then
      match jsMember parsed "gremlinQuery" with
      | .error e => (.error e, t1)
      | .ok gq => runQueryPhase env genv messages (jsToString gq)
    else
      match jsMember parsed "answer" with
      | .error e => (.error e, t1)
      | .ok a =>
        (.ok { answer := if jsTruthy a then a else .str raw, query := none, data := none }, t1)

/-- The part of the pipeline from the first Bedrock call on (aiQuery.js
lines 150-216); this text is identical in the two handler variants. -/
def runPipeline (env : OrchestratorEnv) (genv : GremlinEnv) (messages : List Message) :
    Except String AssistantResponse × CallTrace :=
  let t1 : CallTrace := { bedrockCalls := [messages], gremlinCalls := [] }
  match env.bedrock messages with
  | .error e => (.error e, t1)
  | .ok raw =>
    match extractDirective raw with
    | none => (.ok { answer := .str raw, query := none, data := none }, t1)
    | some parsed => dispatchDirective env genv messages raw parsed

/-- The body of the try block of the Converse-API handler (aiQuery.js
lines 132-216): build the messages, apply the leading-turn shim, log the
message lengths, then run the common pipeline. -/
def tryBody (env : OrchestratorEnv) (genv : GremlinEnv) (q : String) (histVal : JSValue) :
    Except String AssistantResponse × CallTrace :=
  match decodeHistory histVal with
  | .error e => (.error e, emptyTrace)
  | .ok hist =>
    let messages := stripLeadingNonUser (hist ++ [{ role := "user", content := .str q }])
    match checkLogLens messages with
    | .error e => (.error e, emptyTrace)
    | .ok _ => runPipeline env genv messages

/-- The body of the try block of the older InvokeModel handler
(part_002 lines 130-209): identical except that it has neither the
leading-turn shim nor the message-length log. -/
def legacyTryBody (env : OrchestratorEnv) (genv : GremlinEnv) (q : String) (histVal : JSValue) :
    Except String AssistantResponse × CallTrace :=
  match decodeHistory histVal with
  | .error e => (.error e, emptyTrace)
  | .ok hist => runPipeline env genv (hist ++ [{ role := "user", content := .str q }])

/-- The top-level catch (aiQuery.js lines 218-226): any error thrown
inside the try block becomes a generic failure response. -/
def wrapTry (r : Except String AssistantResponse × CallTrace) :
    Except String AssistantResponse × CallTrace :=
  match r with
  | (.ok resp, t) => (.ok resp, t)
  | (.error e, t) =>
    (.ok { answer := .str (failureIntro ++ e), query := none, data := none }, t)

/-- The Converse-API handler (aiQuery.js lines 119-227).  The result is
`.error` exactly when an exception escapes to the caller, which can only
come from the history `JSON.parse` sitting before the try block. -/
def handler (env : OrchestratorEnv) (genv : GremlinEnv) (ev : AppSyncEvent) :
    Except String AssistantResponse × CallTrace :=
  match parseHistoryArg ev with
  | .error e => (.error e, emptyTrace)
  | .ok histVal =>
    match ev.question with
    | none => (.ok guidanceResponse, emptyTrace)
    | some q =>
      if q == "" then (.ok guidanceResponse, emptyTrace)
      else wrapTry (tryBody env genv q histVal)

/-- The older InvokeModel handler (part_002 lines 117-220), same shape
with the legacy try body. -/
def legacyHandler (env : OrchestratorEnv) (genv : GremlinEnv) (ev : AppSyncEvent) :
    Except String AssistantResponse × CallTrace :=
  match parseHistoryArg ev with
  | .error e => (.error e, emptyTrace)
  | .ok histVal =>
    match ev.question with
    | none => (.ok guidanceResponse, emptyTrace)
    | some q =>
      if q == "" then (.ok guidanceResponse, emptyTrace)
      else wrapTry (legacyTryBody env genv q histVal)

/-- The history argument is absent, empty, or valid JSON — exactly the
events whose history handling cannot throw before the try block. -/
def historyWellFormed (ev : AppSyncEvent) : Bool :=
  match ev.history with
  | none => true
  | some h => h == "" || (jsonParse h).isSome

theorem parseHistoryArg_ok (ev : AppSyncEvent) (h : historyWellFormed ev = true) :
    ∃ v, parseHistoryArg ev = .ok v := by
  unfold historyWellFormed at h
  unfold parseHistoryArg
  match hh : ev.history with
  | none => exact ⟨.arr [], rfl⟩
  | some s =>
    rw [hh] at h
    by_cases he : (s == "") = true
    · exact ⟨.arr [], by simp [he]⟩
    · simp only [he, Bool.false_or] at h
      match hp : jsonParse s with
      | some v => exact ⟨v, by simp [he, hp]⟩
      | none => rw [hp] at h; simp at h

theorem wrapTry_trace (r : Except String AssistantResponse × CallTrace) :
    (wrapTry r).2 = r.2 := by
  rcases r with ⟨r1, t⟩
  cases r1 <;> rfl

theorem jsCatchAll_ok (x : Except String Unit) : jsCatchAll x = .ok () := by
  cases x <;> rfl

theorem executeGremlin_eval (genv : GremlinEnv) (q : String) :
    executeGremlin genv q = (genv.eval q, { opens := 1, closes := 1 }) := by
  simp [executeGremlin, jsCatchAll_ok, jsTryFinally]

theorem strip_eq_dropWhile (l : List Message) :
    stripLeadingNonUser l = l.dropWhile (fun m => !(m.role == "user")) := by
  induction l with
  | nil => rfl
  | cons m rest ih =>
    simp only [stripLeadingNonUser, List.dropWhile]
    by_cases h : (m.role == "user") = true
    · simp [h]
    · simp only [eq_false_of_ne_true h]
      simp [ih]

theorem strip_append_user (l : List Message) (m : Message) (h : m.role = "user") :
    ∃ hd tl, stripLeadingNonUser (l ++ [m]) = hd :: tl ∧ hd.role = "user" := by
  induction l with
  | nil =>
    refine ⟨m, [], ?_, h⟩
    simp [stripLeadingNonUser, h]
  | cons m0 rest ih =>
    simp only [List.cons_append, stripLeadingNonUser]
    by_cases h0 : (m0.role == "user") = true
    · exact ⟨m0, rest ++ [m], by simp [h0], by simpa using h0⟩
    · simpa [eq_false_of_ne_true h0] using ih

theorem strip_of_user_head (hist : List Message) (qm : Message) (hq : qm.role = "user")
    (h : hist = [] ∨ ∃ m rest, hist = m :: rest ∧ m.role = "user") :
    stripLeadingNonUser (hist ++ [qm]) = hist ++ [qm] := by
  rcases h with h | ⟨m, rest, h, hm⟩
  · subst h
    simp [stripLeadingNonUser, hq]
  · subst h
    simp [stripLeadingNonUser, hm]

theorem checkLogLens_append (l1 l2 : List Message) (h1 : checkLogLens l1 = .ok ())
    (h2 : checkLogLens l2 = .ok ()) : checkLogLens (l1 ++ l2) = .ok () := by
  induction l1 with
  | nil => simpa using h2
  | cons m rest ih =>
    simp only [checkLogLens, List.cons_append] at h1 ⊢
    match hm : m.content with
    | .null => rw [hm] at h1; exact absurd h1 (by simp)
    | .undefined => rw [hm] at h1; exact absurd h1 (by simp)
    | .bool b => rw [hm] at h1; exact ih h1
    | .num a b c d => rw [hm] at h1; exact ih h1
    | .str s => rw [hm] at h1; exact ih h1
    | .arr xs => rw [hm] at h1; exact ih h1
    | .obj fs => rw [hm] at h1; exact ih h1

theorem runPipeline_trace (env : OrchestratorEnv) (genv : GremlinEnv) (msgs : List Message) :
    (runPipeline env genv msgs).2.bedrockCalls = [msgs] ∨
      ∃ ext, (runPipeline env genv msgs).2.bedrockCalls = [msgs, msgs ++ ext] := by
  unfold runPipeline dispatchDirective runQueryPhase
  simp only [executeGremlin_eval]
  repeat' split
  all_goals first
    | (left; rfl)
    | (right; exact ⟨_, rfl⟩)

theorem handler_eq_wrapTry (env : OrchestratorEnv) (genv : GremlinEnv) (ev : AppSyncEvent)
    (q : String) (hv : JSValue) (hq : ev.question = some q) (hqe : (q == "") = false)
    (hHist : parseHistoryArg ev = .ok hv) :
    handler env genv ev = wrapTry (tryBody env genv q hv) := by
  unfold handler
  rw [hHist, hq]
  simp only [hqe]
  simp

theorem legacyHandler_eq_wrapTry (env : OrchestratorEnv) (genv : GremlinEnv) (ev : AppSyncEvent)
    (q : String) (hv : JSValue) (hq : ev.question = some q) (hqe : (q == "") = false)
    (hHist : parseHistoryArg ev = .ok hv) :
    legacyHandler env genv ev = wrapTry (legacyTryBody env genv q hv) := by
  unfold legacyHandler
  rw [hHist, hq]
  simp only [hqe]
  simp

theorem tryBody_eq_runPipeline (env : OrchestratorEnv) (genv : GremlinEnv) (q : String)
    (hv : JSValue) (hist : List Message) (hDecode : decodeHistory hv = .ok hist)
    (hLog : checkLogLens (stripLeadingNonUser
      (hist ++ [{ role := "user", content := .str q }])) = .ok ()) :
    tryBody env genv q hv =
      runPipeline env genv
        (stripLeadingNonUser (hist ++ [{ role := "user", content := .str q }])) := by
  unfold tryBody
  rw [hDecode]
  simp only [hLog]

/-- C1 (amended): for every environment and every input event whose
history argument is absent, empty, or valid JSON, the handler returns a
well-formed AssistantResponse and no exception propagates to the caller.
(The original claim also covered a present-but-invalid history string;
the counterexample shows that case throws, because the history
`JSON.parse` runs before the try block.) -/
theorem claim_C1 (env : OrchestratorEnv) (genv : GremlinEnv) (ev : AppSyncEvent)
    (h : historyWellFormed ev = true) :
    ∃ resp trace, handler env genv ev = (.ok resp, trace) := by
  obtain ⟨v, hv⟩ := parseHistoryArg_ok ev h
  unfold handler
  rw [hv]
  match hq : ev.question with
  | none => exact ⟨guidanceResponse, emptyTrace, by simp⟩
  | some q =>
    by_cases hqe : (q == "") = true
    · exact ⟨guidanceResponse, emptyTrace, by simp [hqe]⟩
    · rcases htb : tryBody env genv q v with ⟨r, t⟩
      cases r with
      | ok resp => exact ⟨resp, t, by simp [eq_false_of_ne_true hqe, htb, wrapTry]⟩
      | error e =>
        exact ⟨{ answer := .str (failureIntro ++ e), query := none, data := none }, t,
          by simp [eq_false_of_ne_true hqe, htb, wrapTry]⟩

/-- C1 counterexample: with a question present and a history argument
that is not valid JSON, the handler throws (the `JSON.parse` SyntaxError
escapes to the caller), so the original claim is false. -/
theorem claim_C1_counterexample :
    (handler ⟨fun _ => .ok "ack"⟩ ⟨fun _ => .error "unused", .ok ()⟩
        { question := some "how many people?", history := some "not json" }).1
      = .error jsonErrMsg := rfl

/-- C1 witness: a concrete run of the amended theorem. -/
theorem claim_C1_witness :
    historyWellFormed { question := some "q", history := some "[]" } = true ∧
      ∃ resp trace,
        handler ⟨fun _ => .ok "ack"⟩ ⟨fun _ => .error "unused", .ok ()⟩
          { question := some "q", history := some "[]" } = (.ok resp, trace) :=
  ⟨rfl, claim_C1 _ _ _ rfl⟩

/-- C2 (amended): for every input event whose question is absent or empty
and whose history argument is absent, empty, or valid JSON, the handler
returns the fixed guidance response with null query and data and makes no
call to the model adapter or the graph executor.  (The original claim
held for every history; when the history argument is present and not
valid JSON, the handler instead throws before reaching the question
check.) -/
theorem claim_C2 (env : OrchestratorEnv) (genv : GremlinEnv) (ev : AppSyncEvent)
    (hq : ev.question = none ∨ ev.question = some "")
    (h : historyWellFormed ev = true) :
    handler env genv ev = (.ok guidanceResponse, emptyTrace) := by
  obtain ⟨v, hv⟩ := parseHistoryArg_ok ev h
  unfold handler
  rw [hv]
  rcases hq with hq | hq
  · rw [hq]
  · rw [hq]
    simp

/-- C2 counterexample: with the question absent but an invalid-JSON
history present, the handler throws instead of returning the guidance
response. -/
theorem claim_C2_counterexample :
    (handler ⟨fun _ => .ok "ack"⟩ ⟨fun _ => .error "unused", .ok ()⟩
        { question := none, history := some "not json" }).1
      = .error jsonErrMsg := rfl

/-- C2 witness: a concrete run of the amended theorem. -/
theorem claim_C2_witness :
    (({ question := none, history := some "[]" } : AppSyncEvent).question = none ∨
        ({ question := none, history := some "[]" } : AppSyncEvent).question = some "") ∧
      handler ⟨fun _ => .ok "ack"⟩ ⟨fun _ => .error "unused", .ok ()⟩
          { question := none, history := some "[]" } = (.ok guidanceResponse, emptyTrace) :=
  ⟨Or.inl rfl, claim_C2 _ _ _ (Or.inl rfl) rfl⟩

/-- C8: each call of the graph traversal executor opens one fresh
connection and closes it exactly once on every exit path (evaluation
success, traversal error, or transport error, and whether or not the
close itself throws), and the outcome of the executor is always exactly the
evaluation outcome — a close-time error is swallowed and never masks
it. -/
theorem claim_C8 (genv : GremlinEnv) (q : String) :
    (executeGremlin genv q).1 = genv.eval q ∧
      (executeGremlin genv q).2.opens = 1 ∧ (executeGremlin genv q).2.closes = 1 := by
  rw [executeGremlin_eval]
  exact ⟨rfl, rfl, rfl⟩

/-- C9: the Converse-API model adapter throws exactly when the service
reply carries no usable text (missing content, empty content list, or an
absent or empty first text block), returns the text of the first block
otherwise, and every request it builds carries the fixed 1024-token
output cap. -/
theorem claim_C9 (out : Option (List ReplyBlock)) (msgs : List Message) :
    ((∃ e, extractConverseText out = .error e) ↔
        (out = none ∨ out = some [] ∨
          ∃ b bs, out = some (b :: bs) ∧ (b.text = none ∨ b.text = some "")))
      ∧ (∀ b bs s, out = some (b :: bs) → b.text = some s → s ≠ "" →
          extractConverseText out = .ok s)
      ∧ (mkConverseRequest msgs).maxTokens = 1024 := by
  refine ⟨⟨?_, ?_⟩, ?_, rfl⟩
  · rintro ⟨e, he⟩
    match out with
    | none => exact Or.inl rfl
    | some [] => exact Or.inr (Or.inl rfl)
    | some (b :: bs) =>
      refine Or.inr (Or.inr ⟨b, bs, rfl, ?_⟩)
      match hb : b.text with
      | none => exact Or.inl rfl
      | some t =>
        by_cases ht : (t == "") = true
        · exact Or.inr (by rw [eq_of_beq ht])
        · exfalso
          unfold extractConverseText at he
          simp only [hb, eq_false_of_ne_true ht] at he
          simp at he
  · rintro (h | h | ⟨b, bs, h, ht⟩) <;> subst h
    · exact ⟨_, rfl⟩
    · exact ⟨_, rfl⟩
    · rcases ht with ht | ht <;>
        exact ⟨"Empty response from Bedrock", by simp [extractConverseText, ht]⟩
  · rintro b bs s rfl hbt hs
    simp [extractConverseText, hbt, hs]

/-- C9 witness: a usable single-block reply is returned as its text, and
a concrete request carries the 1024-token cap. -/
theorem claim_C9_witness :
    extractConverseText (some [{ text := some "hi" }]) = .ok "hi" ∧
      (mkConverseRequest []).maxTokens = 1024 :=
  ⟨(claim_C9 (some [{ text := some "hi" }]) []).2.1 _ [] "hi" rfl rfl (by decide),
   (claim_C9 (some [{ text := some "hi" }]) []).2.2⟩

/-- C3: on the full success path — nonempty question, first model call
returning a directive with truthy needsQuery and gremlinQuery Q, executor
succeeding with R serializing to D, and the second model call (on the
first message sequence plus the assistant turn stating the executed query
and the user turn requesting a plain-text summary) returning S — the
handler returns answer S, query "g." ++ Q, and data D. -/
theorem claim_C3 (env : OrchestratorEnv) (genv : GremlinEnv) (ev : AppSyncEvent)
    (q : String) (hv : JSValue) (hist sent : List Message) (raw : String)
    (parsed nq : JSValue) (Q D S : String) (R : JSValue)
    (hq : ev.question = some q) (hqe : (q == "") = false)
    (hHist : parseHistoryArg ev = .ok hv)
    (hDecode : decodeHistory hv = .ok hist)
    (hSent : sent = stripLeadingNonUser (hist ++ [{ role := "user", content := .str q }]))
    (hLog : checkLogLens sent = .ok ())
    (hB : env.bedrock sent = .ok raw)
    (hDir : extractDirective raw = some parsed)
    (hNq : jsMember parsed "needsQuery" = .ok nq)
    (hTruthy : jsTruthy nq = true)
    (hGq : jsMember parsed "gremlinQuery" = .ok (.str Q))
    (hEval : genv.eval Q = .ok R)
    (hSer : jsonStringify R = some D)
    (hB2 : env.bedrock (sent ++
      [ { role := "assistant", content := .str ("I executed the Gremlin query: g." ++ Q) }
      , { role := "user",
          content := .str ("The query returned these results: " ++ D ++ summaryTail) } ]) = .ok S) :
    handler env genv ev =
      (.ok { answer := .str S, query := some ("g." ++ Q), data := some D },
       { bedrockCalls :=
           [ sent
           , sent ++
             [ { role := "assistant", content := .str ("I executed the Gremlin query: g." ++ Q) }
             , { role := "user",
                 content := .str ("The query returned these results: " ++ D ++ summaryTail) } ] ]
       , gremlinCalls := [Q] }) := by
  subst hSent
  rw [handler_eq_wrapTry env genv ev q hv hq hqe hHist,
      tryBody_eq_runPipeline env genv q hv hist hDecode hLog]
  unfold runPipeline dispatchDirective runQueryPhase
  rw [hB]
  simp [hDir, hNq, hTruthy, hGq, jsToString, executeGremlin_eval, hEval, hSer, hB2, wrapTry]

/-- C4: when the first model call returns a directive with truthy
needsQuery and gremlinQuery Q and the executor throws with message E, the
handler returns (rather than raises) a response whose answer embeds both
Q and E, whose query is "g." ++ Q, and whose data is null, and the trace
shows no second model call. -/
theorem claim_C4 (env : OrchestratorEnv) (genv : GremlinEnv) (ev : AppSyncEvent)
    (q : String) (hv : JSValue) (hist sent : List Message) (raw : String)
    (parsed nq : JSValue) (Q E : String)
    (hq : ev.question = some q) (hqe : (q == "") = false)
    (hHist : parseHistoryArg ev = .ok hv)
    (hDecode : decodeHistory hv = .ok hist)
    (hSent : sent = stripLeadingNonUser (hist ++ [{ role := "user", content := .str q }]))
    (hLog : checkLogLens sent = .ok ())
    (hB : env.bedrock sent = .ok raw)
    (hDir : extractDirective raw = some parsed)
    (hNq : jsMember parsed "needsQuery" = .ok nq)
    (hTruthy : jsTruthy nq = true)
    (hGq : jsMember parsed "gremlinQuery" = .ok (.str Q))
    (hEval : genv.eval Q = .error E) :
    handler env genv ev =
      (.ok { answer := .str ("I tried to query the graph but encountered an error. The query was: g."
               ++ Q ++ ". Error: " ++ E)
           , query := some ("g." ++ Q), data := none },
       { bedrockCalls := [sent], gremlinCalls := [Q] }) := by
  subst hSent
  rw [handler_eq_wrapTry env genv ev q hv hq hqe hHist,
      tryBody_eq_runPipeline env genv q hv hist hDecode hLog]
  unfold runPipeline dispatchDirective runQueryPhase
  rw [hB]
  simp [hDir, hNq, hTruthy, hGq, jsToString, executeGremlin_eval, hEval, wrapTry]

/-- C5: when no directive can be parsed from the model response (the
brace-delimited slice, or failing a match the whole text, is not valid
JSON), the handler degrades to the raw response text verbatim as the
answer, with null query and data, and raises nothing. -/
theorem claim_C5 (env : OrchestratorEnv) (genv : GremlinEnv) (ev : AppSyncEvent)
    (q : String) (hv : JSValue) (hist sent : List Message) (raw : String)
    (hq : ev.question = some q) (hqe : (q == "") = false)
    (hHist : parseHistoryArg ev = .ok hv)
    (hDecode : decodeHistory hv = .ok hist)
    (hSent : sent = stripLeadingNonUser (hist ++ [{ role := "user", content := .str q }]))
    (hLog : checkLogLens sent = .ok ())
    (hB : env.bedrock sent = .ok raw)
    (hDir : extractDirective raw = none) :
    handler env genv ev =
      (.ok { answer := .str raw, query := none, data := none },
       { bedrockCalls := [sent], gremlinCalls := [] }) := by
  subst hSent
  rw [handler_eq_wrapTry env genv ev q hv hq hqe hHist,
      tryBody_eq_runPipeline env genv q hv hist hDecode hLog]
  unfold runPipeline
  rw [hB]
  simp [hDir, wrapTry]

/-- C6 (amended): when the parsed directive has a falsy needsQuery, the
answer is the answer field of the directive when that field is truthy, and the
raw response text otherwise — the fallback triggers for any falsy answer
value (absent, empty string, false, 0, null), per the `||` operator the
code actually uses, not only for an absent field as `??` semantics would
give.  For `needsQuery: false, answer: "X"` the answer is "X". -/
theorem claim_C6 (env : OrchestratorEnv) (genv : GremlinEnv) (ev : AppSyncEvent)
    (q : String) (hv : JSValue) (hist sent : List Message) (raw : String)
    (parsed nq a : JSValue)
    (hq : ev.question = some q) (hqe : (q == "") = false)
    (hHist : parseHistoryArg ev = .ok hv)
    (hDecode : decodeHistory hv = .ok hist)
    (hSent : sent = stripLeadingNonUser (hist ++ [{ role := "user", content := .str q }]))
    (hLog : checkLogLens sent = .ok ())
    (hB : env.bedrock sent = .ok raw)
    (hDir : extractDirective raw = some parsed)
    (hNq : jsMember parsed "needsQuery" = .ok nq)
    (hTruthy : jsTruthy nq = false)
    (hAns : jsMember parsed "answer" = .ok a) :
    handler env genv ev =
      (.ok { answer := if jsTruthy a = true then a else .str raw, query := none, data := none },
       { bedrockCalls := [sent], gremlinCalls := [] }) := by
  subst hSent
  rw [handler_eq_wrapTry env genv ev q hv hq hqe hHist,
      tryBody_eq_runPipeline env genv q hv hist hDecode hLog]
  unfold runPipeline dispatchDirective
  rw [hB]
  simp [hDir, hNq, hTruthy, hAns, wrapTry]

/-- C7: the first model call receives exactly the normalized history
turns in order followed by the question as a final user turn, with
leading turns dropped up to the first user-authored turn; consequently
every message sequence sent to the model is empty or starts with a
user-authored turn (in fact it is never empty). -/
theorem claim_C7 (env : OrchestratorEnv) (genv : GremlinEnv) (ev : AppSyncEvent)
    (q : String) (hv : JSValue) (hist : List Message)
    (hq : ev.question = some q) (hqe : (q == "") = false)
    (hHist : parseHistoryArg ev = .ok hv)
    (hDecode : decodeHistory hv = .ok hist)
    (hLog : checkLogLens (stripLeadingNonUser
      (hist ++ [{ role := "user", content := .str q }])) = .ok ()) :
    (handler env genv ev).2.bedrockCalls.head? =
        some ((hist ++ [({ role := "user", content := .str q } : Message)]).dropWhile
          (fun m => !(m.role == "user")))
      ∧ ∀ ms ∈ (handler env genv ev).2.bedrockCalls,
          ms = [] ∨ ms.head?.map Message.role = some "user" := by
  rw [handler_eq_wrapTry env genv ev q hv hq hqe hHist,
      tryBody_eq_runPipeline env genv q hv hist hDecode hLog]
  obtain ⟨hd, tl, hstrip, hrole⟩ :=
    strip_append_user hist { role := "user", content := .str q } rfl
  rw [wrapTry_trace]
  rcases runPipeline_trace env genv
      (stripLeadingNonUser (hist ++ [{ role := "user", content := .str q }])) with hT | ⟨ext, hT⟩
  · constructor
    · rw [hT, strip_eq_dropWhile]
      rfl
    · intro ms hms
      rw [hT, List.mem_singleton] at hms
      subst hms
      right
      rw [hstrip]
      simp [hrole]
  · constructor
    · rw [hT, strip_eq_dropWhile]
      rfl
    · intro ms hms
      rw [hT] at hms
      simp only [List.mem_cons, List.mem_singleton, List.not_mem_nil, or_false] at hms
      rcases hms with hms | hms
      · right
        rw [hstrip] at hms
        subst hms
        simp [hrole]
      · right
        rw [hstrip] at hms
        subst hms
        simp [hrole]

/-- C10 (amended): for every input event whose parsed history is empty or
begins with a user-role turn AND all of whose parsed history turns carry
a content value that is neither null nor undefined, the two handler
variants — abstracted over the same model adapter and executor — build
identical message sequences, make identical external calls, and return
identical AssistantResponse values.  (The original claim omitted the
content condition: on a history turn with a missing content the
message-length log of the newer handler throws a TypeError that the older variant,
which has no such log, does not — see the counterexample.) -/
theorem claim_C10 (env : OrchestratorEnv) (genv : GremlinEnv) (ev : AppSyncEvent)
    (hv : JSValue) (hist : List Message)
    (hHist : parseHistoryArg ev = .ok hv)
    (hDecode : decodeHistory hv = .ok hist)
    (hHead : hist = [] ∨ ∃ m rest, hist = m :: rest ∧ m.role = "user")
    (hContents : checkLogLens hist = .ok ()) :
    handler env genv ev = legacyHandler env genv ev := by
  rcases hq : ev.question with _ | q
  · unfold handler legacyHandler
    rw [hHist, hq]
  · by_cases hqe : (q == "") = true
    · unfold handler legacyHandler
      rw [hHist, hq]
      simp [hqe]
    · have hqe' : (q == "") = false := eq_false_of_ne_true hqe
      have hstrip := strip_of_user_head hist { role := "user", content := .str q } rfl hHead
      have hlog : checkLogLens (stripLeadingNonUser
          (hist ++ [{ role := "user", content := .str q }])) = .ok () := by
        rw [hstrip]
        exact checkLogLens_append hist _ hContents rfl
      rw [handler_eq_wrapTry env genv ev q hv hq hqe' hHist,
          legacyHandler_eq_wrapTry env genv ev q hv hq hqe' hHist,
          tryBody_eq_runPipeline env genv q hv hist hDecode hlog]
      unfold legacyTryBody
      rw [hDecode, hstrip]

/-- C10 counterexample: on the event with question "q" and history
`[{"role":"user"}]` (a user-led turn whose content is absent), with a
model adapter that always answers "hello", the newer handler returns the
generic TypeError failure response without calling the adapter while the
older handler calls the adapter and returns "hello" — so the two
variants are not equivalent on every user-led-history event, and they
differ by more than the adapter and the shim. -/
theorem claim_C10_counterexample :
    (handler ⟨fun _ => .ok "hello"⟩ ⟨fun _ => .error "unused", .ok ()⟩
        { question := some "q", history := some "[\x7b\x22role\x22:\x22user\x22\x7d]" }).1
      = .ok { answer := .str (failureIntro ++
              ("TypeError: Cannot read properties of undefined (reading "
                ++ apos ++ "length" ++ apos ++ ")"))
            , query := none, data := none }
    ∧ (legacyHandler ⟨fun _ => .ok "hello"⟩ ⟨fun _ => .error "unused", .ok ()⟩
        { question := some "q", history := some "[\x7b\x22role\x22:\x22user\x22\x7d]" }).1
      = .ok { answer := .str "hello", query := none, data := none }
    ∧ ("hello" : String) ≠ failureIntro ++
        ("TypeError: Cannot read properties of undefined (reading "
          ++ apos ++ "length" ++ apos ++ ")") :=
  ⟨rfl, rfl, by decide⟩

/-- C10 witness: at a concrete event with a user-led, string-content
history the two handlers agree. -/
theorem claim_C10_witness :
    handler ⟨fun _ => .ok "hello"⟩ ⟨fun _ => .error "unused", .ok ()⟩
        { question := some "q2", history := some "[\x7b\x22role\x22:\x22user\x22,\x22content\x22:\x22q1\x22\x7d]" }
      = legacyHandler ⟨fun _ => .ok "hello"⟩ ⟨fun _ => .error "unused", .ok ()⟩
        { question := some "q2", history := some "[\x7b\x22role\x22:\x22user\x22,\x22content\x22:\x22q1\x22\x7d]" } :=
  claim_C10 _ _ _ (.arr [.obj [("role", .str "user"), ("content", .str "q1")]])
    [{ role := "user", content := .str "q1" }] rfl rfl
    (Or.inr ⟨{ role := "user", content := .str "q1" }, [], rfl, rfl⟩) rfl

/-- C3 witness: a concrete end-to-end success run matching the spec
example — directive requesting `V().count().next()`, executor returning
42, summary call answering — applied through the theorem. -/
theorem claim_C3_witness :
    handler ⟨fun msgs => if msgs.length == 1
          then .ok "\x7b\x22needsQuery\x22: true, \x22gremlinQuery\x22: \x22V().count().next()\x22, \x22explanation\x22: \x22count\x22\x7d"
          else .ok "There are 42 vertices."⟩
        ⟨fun _ => .ok (.num false 42 [] 0), .ok ()⟩
        { question := some "how many nodes?", history := none }
      = (.ok { answer := .str "There are 42 vertices."
             , query := some ("g." ++ "V().count().next()")
             , data := some "42" },
         { bedrockCalls :=
             [ [{ role := "user", content := .str "how many nodes?" }]
             , [{ role := "user", content := .str "how many nodes?" }] ++
               [ { role := "assistant",
                   content := .str ("I executed the Gremlin query: g." ++ "V().count().next()") }
               , { role := "user",
                   content := .str ("The query returned these results: " ++ "42" ++ summaryTail) } ] ]
         , gremlinCalls := ["V().count().next()"] }) :=
  claim_C3 _ _ _ "how many nodes?" (.arr [])
    [] [{ role := "user", content := .str "how many nodes?" }]
    "\x7b\x22needsQuery\x22: true, \x22gremlinQuery\x22: \x22V().count().next()\x22, \x22explanation\x22: \x22count\x22\x7d"
    (.obj [("needsQuery", .bool true), ("gremlinQuery", .str "V().count().next()"),
      ("explanation", .str "count")])
    (.bool true) "V().count().next()" "42" "There are 42 vertices." (.num false 42 [] 0)
    rfl rfl rfl rfl rfl rfl rfl rfl rfl rfl rfl rfl
    (by simp only [jsonStringify, stringifyV, renderNum]; rfl) rfl

/-- C4 witness: the spec example — the executor throws "connection
refused" and the answer embeds both the attempted query text and the
error text, with null data and no second model call. -/
theorem claim_C4_witness :
    handler ⟨fun _ => .ok "\x7b\x22needsQuery\x22: true, \x22gremlinQuery\x22: \x22V().count().next()\x22\x7d"⟩
        ⟨fun _ => .error "connection refused", .ok ()⟩
        { question := some "q", history := none }
      = (.ok { answer := .str ("I tried to query the graph but encountered an error. The query was: g."
               ++ "V().count().next()" ++ ". Error: " ++ "connection refused")
             , query := some ("g." ++ "V().count().next()"), data := none },
         { bedrockCalls := [[{ role := "user", content := .str "q" }]]
         , gremlinCalls := ["V().count().next()"] }) :=
  claim_C4 _ _ _ "q" (.arr []) [] [{ role := "user", content := .str "q" }]
    "\x7b\x22needsQuery\x22: true, \x22gremlinQuery\x22: \x22V().count().next()\x22\x7d"
    (.obj [("needsQuery", .bool true), ("gremlinQuery", .str "V().count().next()")])
    (.bool true) "V().count().next()" "connection refused"
    rfl rfl rfl rfl rfl rfl rfl rfl rfl rfl rfl rfl

/-- C5 witness: a plain unstructured model reply is passed through
verbatim as the answer. -/
theorem claim_C5_witness :
    handler ⟨fun _ => .ok "just some text"⟩ ⟨fun _ => .error "unused", .ok ()⟩
        { question := some "q", history := none }
      = (.ok { answer := .str "just some text", query := none, data := none },
         { bedrockCalls := [[{ role := "user", content := .str "q" }]], gremlinCalls := [] }) :=
  claim_C5 _ _ _ "q" (.arr []) [] [{ role := "user", content := .str "q" }] "just some text"
    rfl rfl rfl rfl rfl rfl rfl rfl

/-- C6 counterexample: for the model reply with needsQuery false and the
answer field present but equal to the empty string, the code returns the
whole raw reply text, not the present (empty) answer field — so the
fallback follows falsy `||` semantics, not presence-based `??`
semantics. -/
theorem claim_C6_counterexample :
    (handler ⟨fun _ => .ok "\x7b\x22needsQuery\x22: false, \x22answer\x22: \x22\x22\x7d"⟩
        ⟨fun _ => .error "unused", .ok ()⟩ { question := some "q", history := none }).1
      = .ok { answer := .str "\x7b\x22needsQuery\x22: false, \x22answer\x22: \x22\x22\x7d"
            , query := none, data := none }
    ∧ ("\x7b\x22needsQuery\x22: false, \x22answer\x22: \x22\x22\x7d" : String) ≠ "" :=
  ⟨rfl, by decide⟩

/-- C6 witness: for `needsQuery: false, answer: "X"` the answer is
"X". -/
theorem claim_C6_witness :
    handler ⟨fun _ => .ok "\x7b\x22needsQuery\x22: false, \x22answer\x22: \x22X\x22\x7d"⟩
        ⟨fun _ => .error "unused", .ok ()⟩ { question := some "q", history := none }
      = (.ok { answer := .str "X", query := none, data := none },
         { bedrockCalls := [[{ role := "user", content := .str "q" }]], gremlinCalls := [] }) := by
  have h := claim_C6 ⟨fun _ => .ok "\x7b\x22needsQuery\x22: false, \x22answer\x22: \x22X\x22\x7d"⟩
    ⟨fun _ => .error "unused", .ok ()⟩ { question := some "q", history := none }
    "q" (.arr []) [] [{ role := "user", content := .str "q" }]
    "\x7b\x22needsQuery\x22: false, \x22answer\x22: \x22X\x22\x7d"
    (.obj [("needsQuery", .bool false), ("answer", .str "X")]) (.bool false) (.str "X")
    rfl rfl rfl rfl rfl rfl rfl rfl rfl rfl rfl
  simpa using h

/-- C7 witness: the spec example — history `[assistant "hi", user "q1"]`
and question "q2"; the sequence sent to the model starts at the first
user turn. -/
theorem claim_C7_witness :
    (handler ⟨fun _ => .ok "ack"⟩ ⟨fun _ => .error "unused", .ok ()⟩
        { question := some "q2",
          history := some "[\x7b\x22role\x22:\x22assistant\x22,\x22content\x22:\x22hi\x22\x7d,\x7b\x22role\x22:\x22user\x22,\x22content\x22:\x22q1\x22\x7d]" }).2.bedrockCalls.head? =
        some (([({ role := "assistant", content := .str "hi" } : Message),
                { role := "user", content := .str "q1" }] ++
              [({ role := "user", content := .str "q2" } : Message)]).dropWhile
          (fun m => !(m.role == "user")))
      ∧ ∀ ms ∈ (handler ⟨fun _ => .ok "ack"⟩ ⟨fun _ => .error "unused", .ok ()⟩
          { question := some "q2",
            history := some "[\x7b\x22role\x22:\x22assistant\x22,\x22content\x22:\x22hi\x22\x7d,\x7b\x22role\x22:\x22user\x22,\x22content\x22:\x22q1\x22\x7d]" }).2.bedrockCalls,
          ms = [] ∨ ms.head?.map Message.role = some "user" :=
  claim_C7 ⟨fun _ => .ok "ack"⟩ ⟨fun _ => .error "unused", .ok ()⟩
    { question := some "q2",
      history := some "[\x7b\x22role\x22:\x22assistant\x22,\x22content\x22:\x22hi\x22\x7d,\x7b\x22role\x22:\x22user\x22,\x22content\x22:\x22q1\x22\x7d]" }
    "q2"
    (.arr [.obj [("role", .str "assistant"), ("content", .str "hi")],
           .obj [("role", .str "user"), ("content", .str "q1")]])
    [{ role := "assistant", content := .str "hi" }, { role := "user", content := .str "q1" }]
    rfl rfl rfl rfl rfl
